import Mathlib

/-!
Verification of the core simulation of the NTU DUMB Bird repository.

The development shallowly embeds the game logic of src/NTU_DUMB_BIRD.py
(the fuller of the two near-duplicate game variants; src/flappybird.py is
embedded separately where its behaviour differs).  Python floats are
modelled by the rational numbers, Python ints by Nat.  Randomness
(randint, sample, randrange) is injected as explicit arguments, and the
pygame mask-collision test, which depends on loaded image assets, is
injected as a per-segment Boolean oracle.  Every definition is translated
from the source; the one exception, tickClaimed, is clearly marked as
modelled from the specification for a refinement comparison.
-/

/-- Window width constant WIN_WIDTH = 568. -/
def WIN_WIDTH : ℚ := 568

/-- Window height constant WIN_HEIGHT = 512. -/
def WIN_HEIGHT : ℚ := 512

/-- The value of the global FPS (60) at module load time.  Python evaluates
default argument values once, at function definition time, so the defaults
of frames_to_msec and msec_to_frames are permanently bound to this value
even after main mutates the global FPS. -/
def FPS_default : ℚ := 60

/-- frames_to_msec(frames, fps): 1000.0 * frames / fps. -/
def frames_to_msec (frames fps : ℚ) : ℚ := 1000 * frames / fps

/-- msec_to_frames(milliseconds, fps): fps * milliseconds / 1000.0. -/
def msec_to_frames (milliseconds fps : ℚ) : ℚ := fps * milliseconds / 1000

/-- ADD_INTERVAL = 500 milliseconds between segment spawns. -/
def ADD_INTERVAL : ℚ := 500

/-- The bird: x, y, and the two motion timers in milliseconds. -/
structure Bird where
  x : ℚ
  y : ℚ
  msec_to_move : ℚ
  msec_to_sink : ℚ
deriving DecidableEq

/-- Bird.MOVE_SPEED = 0.8 pixels per millisecond. -/
def Bird.MOVE_SPEED : ℚ := 0.8

/-- Bird.MOVE_DURATION = 100 milliseconds for a complete move. -/
def Bird.MOVE_DURATION : ℚ := 100

/-- Bird.update(delta_frames=1): while the move timer is positive the bird
rises by MOVE_SPEED per millisecond, while the sink timer is positive it
falls by the same speed; both timers are decremented by the elapsed
milliseconds.  Both branches can fire in the same frame. -/
def Bird.update (b : Bird) : Bird :=
  let b1 :=
    if b.msec_to_move > 0 then
      { b with y := b.y - Bird.MOVE_SPEED * frames_to_msec 1 FPS_default,
               msec_to_move := b.msec_to_move - frames_to_msec 1 FPS_default }
    else b
  if b1.msec_to_sink > 0 then
    { b1 with y := b1.y + Bird.MOVE_SPEED * frames_to_msec 1 FPS_default,
              msec_to_sink := b1.msec_to_sink - frames_to_msec 1 FPS_default }
  else b1

/-- Iterated Bird.update, the advance steps of a run of frames. -/
def updates : ℕ → Bird → Bird
  | 0, b => b
  | n + 1, b => updates n b.update

/-- The K_UP handler of main: if position is not 2 (the top lane), restart
the move timer and increment position. -/
def requestAscend (b : Bird) (position : ℕ) : Bird × ℕ :=
  if position ≠ 2 then ({ b with msec_to_move := Bird.MOVE_DURATION }, position + 1)
  else (b, position)

/-- The K_DOWN handler of main: if position is not 0 (the bottom lane),
restart the sink timer and decrement position. -/
def requestDescend (b : Bird) (position : ℕ) : Bird × ℕ :=
  if position ≠ 0 then ({ b with msec_to_sink := Bird.MOVE_DURATION }, position - 1)
  else (b, position)

/-- The kind tag stored in an atr entry: the strings obstacle, bonus, and
None (the tag a consumed bonus is overwritten with). -/
inductive PieceKind where
  | obstacle
  | bonus
  | noneKind
deriving DecidableEq

/-- One atr entry of a segment: the kind tag and the vertical pixel
position piece_pos[1] of the piece. -/
structure Piece where
  kind : PieceKind
  posY : ℚ
deriving DecidableEq

instance : Inhabited Piece := ⟨⟨PieceKind.obstacle, 0⟩⟩

/-- One Obstacle_bonus segment: its x position, the score_counted flag,
the number of pieces mul_obstacle, and the atr list of pieces. -/
structure Obstacle_bonus where
  x : ℚ
  score_counted : Bool
  mul_obstacle : ℕ
  atr : List Piece
deriving DecidableEq

/-- Obstacle_bonus.WIDTH = 100. -/
def Obstacle_bonus.WIDTH : ℚ := 100

/-- Obstacle_bonus.PIECE_HEIGHT = 32. -/
def Obstacle_bonus.PIECE_HEIGHT : ℚ := 32

/-- randrange(2) % 3 == 0: the draw taken mod 3 compared with 0. -/
def is_bonus (draw : ℕ) : Bool := draw % 3 == 0

/-- Obstacle_bonus.__init__ with the randomness injected: mul is the
randint(1,2) result, lanes is the sample(range(0,3),2) result (in sample
order), and draws gives the randrange(2) result for each piece index.
Piece i sits at y[i] = lanes[i] * 87 + 40 above the bottom, giving
piece_pos[1] = WIN_HEIGHT - PIECE_HEIGHT - y[i]; its kind is bonus
exactly when the draw taken mod 3 equals 0.  The segment starts at
x = WIN_WIDTH - 1 with score_counted = False. -/
def Obstacle_bonus.init (mul : ℕ) (lanes : List ℕ) (draws : ℕ → ℕ) : Obstacle_bonus :=
  { x := WIN_WIDTH - 1
    score_counted := false
    mul_obstacle := mul
    atr := (List.range mul).map fun i =>
      { kind := if is_bonus (draws i) then PieceKind.bonus else PieceKind.obstacle
        posY := WIN_HEIGHT - Obstacle_bonus.PIECE_HEIGHT - ((lanes.getD i 0 : ℚ) * 87 + 40) } }

/-- Obstacle_bonus.visible: -WIDTH < x < WIN_WIDTH. -/
def Obstacle_bonus.visible (p : Obstacle_bonus) : Bool :=
  decide (-Obstacle_bonus.WIDTH < p.x ∧ p.x < WIN_WIDTH)

/-- np.argmin: index of the first minimum of a list of rationals. -/
def argminIdx : List ℚ → ℕ
  | [] => 0
  | [_] => 0
  | a :: b :: rest =>
    let j := argminIdx (b :: rest)
    if (b :: rest).getD j 0 < a then j + 1 else 0

/-- The argmin index over the absolute vertical distances between the
bird y and each atr entry of the segment, as computed in the collision
branch of main. -/
def selIdx (birdY : ℚ) (p : Obstacle_bonus) : ℕ :=
  argminIdx (p.atr.map fun a => |birdY - a.posY|)

/-- The kind tag of the selected (nearest) piece, col_atr in main. -/
def selKind (birdY : ℚ) (p : Obstacle_bonus) : PieceKind :=
  (p.atr.getD (selIdx birdY p) default).kind

/-- The body of the per-segment loop in main (NTU variant): if the mask
collision fired, look at the nearest piece; a bonus adds 3, marks the
segment score_counted and overwrites the piece kind with None; a None
piece does nothing; an obstacle ends the run.  Then, independently, the
pass-through rule: if the segment trailing edge is fully past the bird x
and score_counted is still false, add 1 and set score_counted. -/
def segStep (birdX birdY : ℚ) (hit : Bool) (p : Obstacle_bonus) (score : ℕ) (dn : Bool) :
    Obstacle_bonus × ℕ × Bool :=
  let r :=
    if hit then
      match selKind birdY p with
      | PieceKind.bonus =>
        let j := selIdx birdY p
        ({ p with score_counted := true,
                  atr := p.atr.set j { p.atr.getD j default with kind := PieceKind.noneKind } },
         score + 3, dn)
      | PieceKind.noneKind => (p, score, dn)
      | PieceKind.obstacle => (p, score, true)
    else (p, score, dn)
  let q := r.1
  if q.x + Obstacle_bonus.WIDTH < birdX ∧ q.score_counted = false then
    ({ q with score_counted := true }, r.2.1 + 1, r.2.2)
  else r

/-- The per-segment loop of the flappybird.py variant: a bonus hit adds 1
and marks score_counted but never overwrites the piece kind, any other
hit ends the run, and there is no pass-through rule. -/
def segStepFB (birdY : ℚ) (hit : Bool) (p : Obstacle_bonus) (score : ℕ) (dn : Bool) :
    Obstacle_bonus × ℕ × Bool :=
  if hit then
    match selKind birdY p with
    | PieceKind.bonus => ({ p with score_counted := true }, score + 1, dn)
    | _ => (p, score, true)
  else (p, score, dn)

/-- The whole collision and scoring loop of main over the live segments,
with the mask-collision outcomes injected as a list of Booleans (one per
segment, missing entries meaning no collision). -/
def scoreLoop (birdX birdY : ℚ) :
    List Obstacle_bonus → List Bool → ℕ → Bool → List Obstacle_bonus × ℕ × Bool
  | [], _, score, dn => ([], score, dn)
  | p :: ps, hits, score, dn =>
    let r := segStep birdX birdY (hits.headD false) p score dn
    let rest := scoreLoop birdX birdY ps hits.tail r.2.1 r.2.2
    (r.1 :: rest.1, rest.2.1, rest.2.2)

/-- The eviction loop of main: pop segments from the front of the deque
while the front segment is not visible. -/
def evict : List Obstacle_bonus → List Obstacle_bonus
  | [] => []
  | p :: ps => if p.visible then p :: ps else evict ps

/-- Python float modulo with a positive modulus: a - b * floor(a / b). -/
def qmod (a b : ℚ) : ℚ := a - b * (⌊a / b⌋ : ℚ)

/-- The discrete input events serviced by the event loop of main. -/
inductive Cmd where
  | up
  | down
  | pauseKey
  | quitKey
deriving DecidableEq

/-- The mutable state of one run of main. -/
structure GameState where
  score : ℕ
  done : Bool
  paused : Bool
  frame_clock : ℕ
  position : ℕ
  bird : Bird
  objects : List Obstacle_bonus
  animation_speed : ℚ
  fps : ℚ
  bgSpeed : ℚ
deriving DecidableEq

/-- The event loop of main: K_UP and K_DOWN drive the lane changes, pause
toggles, and quit or escape sets done and breaks out of the event loop
(dropping the remaining events of this frame). -/
def applyEvents : GameState → List Cmd → GameState
  | s, [] => s
  | s, c :: cs =>
    match c with
    | Cmd.quitKey => { s with done := true }
    | Cmd.pauseKey => applyEvents { s with paused := !s.paused } cs
    | Cmd.up =>
      let r := requestAscend s.bird s.position
      applyEvents { s with bird := r.1, position := r.2 } cs
    | Cmd.down =>
      let r := requestDescend s.bird s.position
      applyEvents { s with bird := r.1, position := r.2 } cs

/-- The spawn check at the top of the frame: when not paused and
frame_clock % msec_to_frames(ADD_INTERVAL) is zero (the default fps
argument having been bound at definition time), append a new segment. -/
def spawnPhase (newSeg : Obstacle_bonus) (s : GameState) : GameState :=
  if s.paused = false ∧ qmod (s.frame_clock : ℚ) (msec_to_frames ADD_INTERVAL FPS_default) = 0
  then { s with objects := s.objects ++ [newSeg] }
  else s

/-- The collision and scoring loop applied to the game state. -/
def scorePhase (hits : List Bool) (s : GameState) : GameState :=
  let r := scoreLoop s.bird.x s.bird.y s.objects hits s.score s.done
  { s with objects := r.1, score := r.2.1, done := r.2.2 }

/-- The difficulty ramp: whenever score % 10 == 1, add 0.001 to the
animation speed, 10 to the global FPS and 0.05 to the background speed. -/
def rampPhase (s : GameState) : GameState :=
  if s.score % 10 = 1 then
    { s with animation_speed := s.animation_speed + 0.001,
             fps := s.fps + 10,
             bgSpeed := s.bgSpeed + 0.05 }
  else s

/-- The eviction step applied to the game state. -/
def evictPhase (s : GameState) : GameState :=
  { s with objects := evict s.objects }

/-- The update loop over the segments: each segment moves left by the
current animation speed times the frame milliseconds (whose fps default
was bound at definition time). -/
def advancePhase (s : GameState) : GameState :=
  { s with objects := s.objects.map fun p =>
      { p with x := p.x - s.animation_speed * frames_to_msec 1 FPS_default } }

/-- The bird motion update applied to the game state. -/
def birdPhase (s : GameState) : GameState :=
  { s with bird := s.bird.update }

/-- One iteration of the main while loop, in the order of the source:
spawn check, event handling, the paused shortcut (which skips everything
including the frame counter), then the collision and scoring loop, the
difficulty ramp, eviction, segment advance, bird update, and finally the
frame counter increment. -/
def tick (newSeg : Obstacle_bonus) (events : List Cmd) (hits : List Bool)
    (s : GameState) : GameState :=
  let s1 := spawnPhase newSeg s
  let s2 := applyEvents s1 events
  if s2.paused then s2
  else
    let s3 := birdPhase (advancePhase (evictPhase (rampPhase (scorePhase hits s2))))
    { s3 with frame_clock := s3.frame_clock + 1 }

/-- Modelled from the spec: the per-tick data flow prescribed by the
specification (spawn check, then advance all segments, then evict
invisible ones, then collision queries and scoring, then the ramp, then
the actor motion update), for comparison with the order the source
actually uses. -/
def tickClaimed (newSeg : Obstacle_bonus) (events : List Cmd) (hits : List Bool)
    (s : GameState) : GameState :=
  let s1 := spawnPhase newSeg s
  let s2 := applyEvents s1 events
  if s2.paused then s2
  else
    let s3 := birdPhase (rampPhase (scorePhase hits (evictPhase (advancePhase s2))))
    { s3 with frame_clock := s3.frame_clock + 1 }

/-- The while-not-done driver: run up to k further iterations, stopping
as soon as done holds, with the per-iteration randomness, events and
collision outcomes supplied as streams indexed by the iteration count. -/
def loopRun (segs : ℕ → Obstacle_bonus) (evs : ℕ → List Cmd) (hs : ℕ → List Bool) :
    ℕ → ℕ → GameState → GameState
  | _, 0, s => s
  | t, k + 1, s =>
    if s.done then s
    else loopRun segs evs hs (t + 1) k (tick (segs t) (evs t) (hs t) s)

/-- Forget the fps field of a state (the fps channel is compared
separately when studying fps independence). -/
def stripFps (s : GameState) : GameState := { s with fps := 0 }

/-- The relation of two pieces occupying distinct vertical positions
(hence distinct lanes). -/
def distinctPosY (p q : Piece) : Prop := p.posY ≠ q.posY

/-- Draw stream that always returns 0 (every draw passes the mod-3 test). -/
def zeroDraws : ℕ → ℕ := fun _ => 0

/-- Draw stream that always returns 1 (no draw passes the mod-3 test). -/
def oneDraws : ℕ → ℕ := fun _ => 1

/-- A generated segment holding a single bonus piece on lane 1. -/
def pBonus : Obstacle_bonus := Obstacle_bonus.init 1 [1, 0] zeroDraws

/-- A generated segment holding two obstacle pieces, the lane-2 piece
listed first because the random sample drew lane 2 before lane 0. -/
def pTie : Obstacle_bonus := Obstacle_bonus.init 2 [2, 0] oneDraws

/-- A segment whose single piece has already been consumed. -/
def consumedSeg : Obstacle_bonus := ⟨400, true, 1, [⟨PieceKind.noneKind, 353⟩]⟩

/-- A generated segment holding a single obstacle piece on lane 0. -/
def dummySeg : Obstacle_bonus := Obstacle_bonus.init 1 [0, 1] oneDraws

/-- getD of a mapped range list evaluates the function at the index. -/
lemma getD_map_range {β : Type} (dβ : β) :
    ∀ (n : ℕ) (f : ℕ → β) (i : ℕ), i < n → ((List.range n).map f).getD i dβ = f i
  | 0, _, _, h => absurd h (by omega)
  | n + 1, f, i, h => by
    rw [List.range_succ_eq_map]
    cases i with
    | zero => simp
    | succ j =>
      simp only [List.map_cons, List.getD_cons_succ, List.map_map]
      exact getD_map_range dβ n (f ∘ Nat.succ) j (by omega)

/-- getD of the mapped distance list is the distance of the getD piece. -/
lemma getD_map_abs (yq : ℚ) :
    ∀ (l : List Piece) (k : ℕ), k < l.length →
      (l.map fun a => |yq - a.posY|).getD k 0 = |yq - (l.getD k default).posY|
  | [], _, h => absurd h (by simp)
  | _ :: _, 0, _ => by simp
  | _ :: t, k + 1, h => by
    simp only [List.map_cons, List.getD_cons_succ]
    exact getD_map_abs yq t k (by simpa using h)

/-- argminIdx returns an in-range index of the first minimum: the value
there is a lower bound of the whole list and strictly below every value
at an earlier position. -/
theorem argminIdx_spec :
    ∀ (l : List ℚ), l ≠ [] →
      argminIdx l < l.length ∧
      (∀ k, k < l.length → l.getD (argminIdx l) 0 ≤ l.getD k 0) ∧
      (∀ k, k < argminIdx l → l.getD (argminIdx l) 0 < l.getD k 0)
  | [], h => absurd rfl h
  | [x], _ => by simp [argminIdx]
  | x :: y :: rest, _ => by
    obtain ⟨ih1, ih2, ih3⟩ := argminIdx_spec (y :: rest) (by simp)
    simp only [argminIdx]
    by_cases hc : (y :: rest).getD (argminIdx (y :: rest)) 0 < x
    · rw [if_pos hc]
      refine ⟨by simpa using Nat.succ_lt_succ ih1, ?_, ?_⟩
      · intro k hk
        cases k with
        | zero => simpa using le_of_lt hc
        | succ k =>
          simp only [List.getD_cons_succ]
          exact ih2 k (by simpa using hk)
      · intro k hk
        cases k with
        | zero => simpa using hc
        | succ k =>
          simp only [List.getD_cons_succ]
          exact ih3 k (by omega)
    · rw [if_neg hc]
      push_neg at hc
      refine ⟨by simp, ?_, ?_⟩
      · intro k hk
        cases k with
        | zero => simp
        | succ k =>
          simp only [List.getD_cons_zero, List.getD_cons_succ]
          exact le_trans hc (ih2 k (by simpa using hk))
      · intro k hk
        omega

/-- C4 amended theorem.  For every colliding Segment exactly one Piece is
credited: an in-range index is selected whose piece has minimum absolute
vertical distance to the bird y, and among equal distances the piece that
comes first in the atr list (the order the lanes were sampled) wins: every
earlier piece is at strictly greater distance.  The claimed lowest-lane
tie-break does not hold; see the counterexample. -/
theorem c4_theorem (birdY : ℚ) (p : Obstacle_bonus) (h : p.atr ≠ []) :
    selIdx birdY p < p.atr.length ∧
    (∀ k, k < p.atr.length →
      |birdY - (p.atr.getD (selIdx birdY p) default).posY| ≤
        |birdY - (p.atr.getD k default).posY|) ∧
    (∀ k, k < selIdx birdY p →
      |birdY - (p.atr.getD (selIdx birdY p) default).posY| <
        |birdY - (p.atr.getD k default).posY|) := by
  have hne : (p.atr.map fun a => |birdY - a.posY|) ≠ [] := by simpa using h
  obtain ⟨h1, h2, h3⟩ := argminIdx_spec _ hne
  simp only [List.length_map] at h1
  have hsel : selIdx birdY p = argminIdx (p.atr.map fun a => |birdY - a.posY|) := rfl
  refine ⟨by rw [hsel]; exact h1, ?_, ?_⟩
  · intro k hk
    have := h2 k (by simpa using hk)
    rwa [getD_map_abs birdY p.atr _ h1, getD_map_abs birdY p.atr k hk, ← hsel] at this
  · intro k hk
    rw [hsel] at hk
    have := h3 k hk
    have hk2 : k < p.atr.length := lt_trans hk h1
    rwa [getD_map_abs birdY p.atr _ h1, getD_map_abs birdY p.atr k hk2, ← hsel] at this

/-- C4 witness: the amended theorem applied to a concrete generated
segment. -/
theorem c4_witness : pTie.atr ≠ [] ∧ selIdx 353 pTie < pTie.atr.length :=
  ⟨by simp [pTie, Obstacle_bonus.init], (c4_theorem 353 pTie (by simp [pTie, Obstacle_bonus.init])).1⟩

/-- C4 counterexample.  The generated segment pTie has its two pieces at
equal absolute vertical distance 87 from a bird at y = 353, yet the
selection picks index 0, the lane-2 piece (the first lane drawn by the
sample), not the lane-0 piece the lowest-lane-index tie-break would
require; the two pieces sit at different positions, so the selections
differ observably. -/
theorem c4_counterexample :
    |(353 : ℚ) - (pTie.atr.getD 0 default).posY| =
      |(353 : ℚ) - (pTie.atr.getD 1 default).posY| ∧
    selIdx 353 pTie = 0 ∧
    (pTie.atr.getD 0 default).posY =
      WIN_HEIGHT - Obstacle_bonus.PIECE_HEIGHT - ((2 : ℚ) * 87 + 40) ∧
    (pTie.atr.getD 1 default).posY =
      WIN_HEIGHT - Obstacle_bonus.PIECE_HEIGHT - ((0 : ℚ) * 87 + 40) ∧
    (pTie.atr.getD 0 default).posY ≠ (pTie.atr.getD 1 default).posY := by
  have hr : List.range 2 = [0, 1] := rfl
  have hatr : pTie.atr = [⟨PieceKind.obstacle, 266⟩, ⟨PieceKind.obstacle, 440⟩] := by
    simp only [pTie, Obstacle_bonus.init, hr, List.map_cons, List.map_nil]
    norm_num [is_bonus, oneDraws, WIN_HEIGHT, Obstacle_bonus.PIECE_HEIGHT]
  refine ⟨?_, ?_, ?_, ?_, ?_⟩ <;>
    norm_num [hatr, selIdx, argminIdx, WIN_HEIGHT, Obstacle_bonus.PIECE_HEIGHT]

/-- C9: every segment the generator produces from a sample of two distinct
lanes (each below 3, as sample(range(0,3),2) guarantees) has its 1 or 2
pieces at pairwise distinct vertical positions, i.e. on distinct lanes,
whatever the kind draws are. -/
theorem c9_theorem (mul a0 a1 : ℕ) (draws : ℕ → ℕ) (hmul : mul = 1 ∨ mul = 2)
    (h0 : a0 < 3) (h1 : a1 < 3) (hne : a0 ≠ a1) :
    List.Pairwise distinctPosY (Obstacle_bonus.init mul [a0, a1] draws).atr := by
  rcases hmul with rfl | rfl
  · have hr : List.range 1 = [0] := rfl
    simp [Obstacle_bonus.init, hr]
  · have hr : List.range 2 = [0, 1] := rfl
    simp only [Obstacle_bonus.init, hr, List.map_cons, List.map_nil]
    refine List.pairwise_cons.mpr ⟨?_, List.pairwise_cons.mpr
      ⟨fun q hq => absurd hq (List.not_mem_nil q), List.Pairwise.nil⟩⟩
    intro q hq
    rw [List.mem_singleton] at hq
    subst hq
    dsimp only [distinctPosY]
    simp only [List.getD_cons_zero, List.getD_cons_succ]
    intro heq
    apply hne
    have : (a0 : ℚ) = (a1 : ℚ) := by linarith
    exact_mod_cast this

/-- C9 witness: the theorem applied to a concrete generated segment with
two pieces. -/
theorem c9_witness :
    ((2 : ℕ) = 1 ∨ (2 : ℕ) = 2) ∧
      List.Pairwise distinctPosY (Obstacle_bonus.init 2 [0, 1] oneDraws).atr :=
  ⟨Or.inr rfl, c9_theorem 2 0 1 oneDraws (Or.inr rfl) (by norm_num) (by norm_num) (by norm_num)⟩

/-- C6 amended theorem.  Each piece kind is decided independently by its
own draw: the kind is bonus exactly when the draw taken mod 3 equals 0;
on the actual draw range of randrange(2), namely 0 and 1, that means
exactly when the draw is 0, so a piece is a bonus for exactly half of the
possible draws, probability 1/2 (not approximately 1/3 as claimed; see
the counterexample). -/
theorem c6_theorem (mul : ℕ) (lanes : List ℕ) (draws : ℕ → ℕ) (i : ℕ) (hi : i < mul) :
    ((Obstacle_bonus.init mul lanes draws).atr.getD i default).kind
      = (if is_bonus (draws i) then PieceKind.bonus else PieceKind.obstacle) ∧
    (∀ d : ℕ, is_bonus d = true ↔ d % 3 = 0) ∧
    (∀ d : ℕ, d < 2 → (is_bonus d = true ↔ d = 0)) ∧
    (((Finset.range 2).filter fun d => is_bonus d = true).card : ℚ)
      / ((Finset.range 2).card : ℚ) = 1 / 2 := by
  refine ⟨?_, ?_, ?_, ?_⟩
  · simp only [Obstacle_bonus.init]
    rw [getD_map_range default mul _ i hi]
  · intro d
    simp [is_bonus]
  · intro d hd
    interval_cases d <;> simp [is_bonus]
  · have hc : ((Finset.range 2).filter fun d => is_bonus d = true).card = 1 := by decide
    rw [hc]
    norm_num

/-- C6 witness: the theorem applied at a concrete piece of a concrete
generated segment. -/
theorem c6_witness :
    (0 : ℕ) < 1 ∧
      ((Obstacle_bonus.init 1 [1, 0] zeroDraws).atr.getD 0 default).kind
        = (if is_bonus (zeroDraws 0) then PieceKind.bonus else PieceKind.obstacle) :=
  ⟨Nat.one_pos, (c6_theorem 1 [1, 0] zeroDraws 0 Nat.one_pos).1⟩

/-- C6 counterexample.  Over the uniform draw range of randrange(2) the
fraction of draws that make a piece a bonus is exactly 1/2, which is not
the claimed (approximate) 1/3. -/
theorem c6_counterexample :
    (((Finset.range 2).filter fun d => is_bonus d = true).card : ℚ)
      / ((Finset.range 2).card : ℚ) = 1 / 2 ∧
    ¬ ((((Finset.range 2).filter fun d => is_bonus d = true).card : ℚ)
      / ((Finset.range 2).card : ℚ) = 1 / 3) := by
  have hc : ((Finset.range 2).filter fun d => is_bonus d = true).card = 1 := by decide
  constructor <;> rw [hc] <;> norm_num

/-- C3 amended theorem (NTU variant).  First part: a hit whose nearest
piece is a bonus adds exactly 3 to the score, leaves the done flag
unchanged, marks the segment score_counted, and overwrites the selected
piece kind with None (the terminal consumed tag); no pass-through point is
added in the same step.  Second part: a hit whose nearest piece is the
None tag behaves exactly like no hit at all (idempotent re-hit, not a
miss): the same state, score and done flag result as when the mask test
had not fired. -/
theorem c3_theorem :
    (∀ (bx byq : ℚ) (p : Obstacle_bonus) (sc : ℕ) (dn : Bool),
      selKind byq p = PieceKind.bonus →
      segStep bx byq true p sc dn =
        ({ p with score_counted := true,
                  atr := p.atr.set (selIdx byq p)
                    { p.atr.getD (selIdx byq p) default with kind := PieceKind.noneKind } },
         sc + 3, dn)) ∧
    (∀ (bx byq : ℚ) (p : Obstacle_bonus) (sc : ℕ) (dn : Bool),
      selKind byq p = PieceKind.noneKind →
      segStep bx byq true p sc dn = segStep bx byq false p sc dn) := by
  constructor
  · intro bx byq p sc dn h
    simp [segStep, h]
  · intro bx byq p sc dn h
    simp [segStep, h]

/-- C3 witness: both parts applied at concrete segments, a fresh bonus
segment and an already consumed one. -/
theorem c3_witness :
    (selKind 353 pBonus = PieceKind.bonus ∧
      segStep 30 353 true pBonus 0 false =
        ({ pBonus with score_counted := true,
                       atr := pBonus.atr.set (selIdx 353 pBonus)
                         { pBonus.atr.getD (selIdx 353 pBonus) default with
                             kind := PieceKind.noneKind } },
         0 + 3, false)) ∧
    (selKind 353 consumedSeg = PieceKind.noneKind ∧
      segStep 30 353 true consumedSeg 7 false = segStep 30 353 false consumedSeg 7 false) := by
  have hb : pBonus.atr = [⟨PieceKind.bonus, 353⟩] := by
    have hr : List.range 1 = [0] := rfl
    simp only [pBonus, Obstacle_bonus.init, hr, List.map_cons, List.map_nil]
    norm_num [is_bonus, zeroDraws, WIN_HEIGHT, Obstacle_bonus.PIECE_HEIGHT]
  have h1 : selKind 353 pBonus = PieceKind.bonus := by
    simp [selKind, selIdx, hb, argminIdx]
  have h2 : selKind 353 consumedSeg = PieceKind.noneKind := by
    simp [selKind, selIdx, consumedSeg, argminIdx]
  exact ⟨⟨h1, c3_theorem.1 30 353 pBonus 0 false h1⟩,
         ⟨h2, c3_theorem.2 30 353 consumedSeg 7 false h2⟩⟩

/-- C3 counterexample (flappybird variant).  After a first hit on a fresh
bonus segment the nearest piece still carries the bonus tag (it never
transitions to a consumed kind), and a second hit in a later tick adds the
bonus value again, so the score reaches 2 instead of staying at 1. -/
theorem c3_counterexample :
    selKind 353 ((segStepFB 353 true pBonus 0 false).1) = PieceKind.bonus ∧
    (segStepFB 353 true ((segStepFB 353 true pBonus 0 false).1)
      ((segStepFB 353 true pBonus 0 false).2.1)
      ((segStepFB 353 true pBonus 0 false).2.2)).2.1 = 2 := by
  have hb : pBonus.atr = [⟨PieceKind.bonus, 353⟩] := by
    have hr : List.range 1 = [0] := rfl
    simp only [pBonus, Obstacle_bonus.init, hr, List.map_cons, List.map_nil]
    norm_num [is_bonus, zeroDraws, WIN_HEIGHT, Obstacle_bonus.PIECE_HEIGHT]
  have h1 : selKind 353 pBonus = PieceKind.bonus := by
    simp [selKind, selIdx, hb, argminIdx]
  have hstep : segStepFB 353 true pBonus 0 false =
      ({ pBonus with score_counted := true }, 1, false) := by
    simp [segStepFB, h1]
  have h2 : selKind 353 ({ pBonus with score_counted := true } : Obstacle_bonus)
      = PieceKind.bonus := by
    simp [selKind, selIdx, hb, argminIdx]
  rw [hstep]
  exact ⟨h2, by simp [segStepFB, h2]⟩

/-- A bird with no running sink timer and a fresh move timer comes to rest
exactly 80 pixels higher after 6 frames: each of the 6 frames while the
move timer is positive subtracts MOVE_SPEED times 1000/60 from y, and the
timer reaches exactly zero. -/
lemma updates_six (x y : ℚ) :
    updates 6 (⟨x, y, Bird.MOVE_DURATION, 0⟩ : Bird) = ⟨x, y - 80, 0, 0⟩ := by
  norm_num [updates, Bird.update, frames_to_msec, FPS_default, Bird.MOVE_SPEED,
    Bird.MOVE_DURATION]
  ring

/-- A bird whose timers are both zero is a fixed point of updates. -/
lemma updates_fixed_point (x y : ℚ) : ∀ n, updates n (⟨x, y, 0, 0⟩ : Bird) = ⟨x, y, 0, 0⟩
  | 0 => rfl
  | n + 1 => by
    have h : Bird.update ⟨x, y, 0, 0⟩ = ⟨x, y, 0, 0⟩ := by
      norm_num [Bird.update]
    simp only [updates, h]
    exact updates_fixed_point x y n

/-- C5 amended theorem.  An ascend request issued while the bird is not at
the top lane and no descend is in progress (the sink timer is zero)
increments the lane index by exactly 1, and running 6 advance steps (which
exhausts the 100 ms timer at 1000/60 ms per step) decreases y by exactly
MOVE_SPEED times MOVE_DURATION = 80 pixels; further advance steps change
nothing.  Without the no-descend proviso the claim fails, see the
counterexample. -/
theorem c5_theorem (x y mtm : ℚ) (pos : ℕ) (hpos : pos ≠ 2) :
    (requestAscend ⟨x, y, mtm, 0⟩ pos).2 = pos + 1 ∧
    (updates 6 (requestAscend ⟨x, y, mtm, 0⟩ pos).1).y
      = y - Bird.MOVE_SPEED * Bird.MOVE_DURATION ∧
    (∀ n, updates n (updates 6 (requestAscend ⟨x, y, mtm, 0⟩ pos).1)
      = updates 6 (requestAscend ⟨x, y, mtm, 0⟩ pos).1) := by
  have hra : requestAscend ⟨x, y, mtm, 0⟩ pos
      = (⟨x, y, Bird.MOVE_DURATION, 0⟩, pos + 1) := by
    simp [requestAscend, hpos]
  rw [hra]
  refine ⟨rfl, ?_, ?_⟩
  · rw [updates_six]
    norm_num [Bird.MOVE_SPEED, Bird.MOVE_DURATION]
  · intro n
    rw [updates_six]
    exact updates_fixed_point x (y - 80) n

/-- C5 witness: the theorem applied at the initial bird position on the
middle lane. -/
theorem c5_witness :
    (1 : ℕ) ≠ 2 ∧ (updates 6 (requestAscend ⟨30, 354, 0, 0⟩ 1).1).y
      = 354 - Bird.MOVE_SPEED * Bird.MOVE_DURATION :=
  ⟨by norm_num, (c5_theorem 30 354 0 1 (by norm_num)).2.1⟩

/-- C5 counterexample.  A descend request followed by an ascend request
leaves both timers at 100 ms; the request was issued away from the top
lane, yet after the 6 advance steps that exhaust the ascend timer the
bird y is unchanged at 354 (the overlapping timers cancel), not lowered
by MOVE_SPEED times MOVE_DURATION. -/
theorem c5_counterexample :
    (requestDescend ⟨30, 354, 0, 0⟩ 1).2 ≠ 2 ∧
    (updates 6 (requestAscend (requestDescend ⟨30, 354, 0, 0⟩ 1).1
        (requestDescend ⟨30, 354, 0, 0⟩ 1).2).1).y = 354 ∧
    (354 : ℚ) ≠ 354 - Bird.MOVE_SPEED * Bird.MOVE_DURATION := by
  have hd : requestDescend ⟨30, 354, 0, 0⟩ 1 = (⟨30, 354, 0, 100⟩, 0) := by
    norm_num [requestDescend, Bird.MOVE_DURATION]
  have ha : requestAscend ⟨30, 354, 0, 100⟩ 0 = (⟨30, 354, 100, 100⟩, 1) := by
    norm_num [requestAscend, Bird.MOVE_DURATION]
  rw [hd]
  refine ⟨by norm_num, ?_, by norm_num [Bird.MOVE_SPEED, Bird.MOVE_DURATION]⟩
  have h6 : updates 6 (⟨30, 354, 100, 100⟩ : Bird) = ⟨30, 354, 0, 0⟩ := by
    norm_num [updates, Bird.update, frames_to_msec, FPS_default, Bird.MOVE_SPEED]
  rw [ha, h6]

/-- C1 amended theorem.  Complete characterization of one per-segment
scoring step: afterwards score_counted holds exactly when it already held,
or the hit credited a bonus piece (which sets the flag without awarding
the pass-through point), or the trailing edge is fully past the bird x
(the pass-through rule).  The score grows by 3 exactly on a credited
bonus, and by the 1-point pass-through bonus exactly when the segment is
fully past and the flag was not already set by an earlier tick or by the
bonus credit of this very step.  In particular the flag only ever goes
from false to true and is never reset, but it is not set only by the
pass-through rule. -/
theorem c1_theorem (bx byq : ℚ) (hit : Bool) (p : Obstacle_bonus) (sc : ℕ) (dn : Bool) :
    ((segStep bx byq hit p sc dn).1.score_counted = true ↔
      (p.score_counted = true ∨ (hit = true ∧ selKind byq p = PieceKind.bonus) ∨
        p.x + Obstacle_bonus.WIDTH < bx)) ∧
    ((segStep bx byq hit p sc dn).2.1 =
      sc + (if hit = true ∧ selKind byq p = PieceKind.bonus then 3 else 0)
         + (if p.x + Obstacle_bonus.WIDTH < bx ∧ p.score_counted = false ∧
              ¬ (hit = true ∧ selKind byq p = PieceKind.bonus) then 1 else 0)) := by
  cases hit with
  | false =>
    by_cases hx : p.x + Obstacle_bonus.WIDTH < bx
    · cases hc : p.score_counted with
      | false => simp [segStep, hx, hc]
      | true => simp [segStep, hx, hc]
    · cases hc : p.score_counted with
      | false => simp [segStep, hx, hc]
      | true => simp [segStep, hx, hc]
  | true =>
    cases hsel : selKind byq p with
    | bonus =>
      simp [segStep, hsel]
    | noneKind =>
      by_cases hx : p.x + Obstacle_bonus.WIDTH < bx
      · cases hc : p.score_counted with
        | false => simp [segStep, hsel, hx, hc]
        | true => simp [segStep, hsel, hx, hc]
      · cases hc : p.score_counted with
        | false => simp [segStep, hsel, hx, hc]
        | true => simp [segStep, hsel, hx, hc]
    | obstacle =>
      by_cases hx : p.x + Obstacle_bonus.WIDTH < bx
      · cases hc : p.score_counted with
        | false => simp [segStep, hsel, hx, hc]
        | true => simp [segStep, hsel, hx, hc]
      · cases hc : p.score_counted with
        | false => simp [segStep, hsel, hx, hc]
        | true => simp [segStep, hsel, hx, hc]

/-- C1 counterexample.  A bonus hit on a fresh segment whose trailing edge
is nowhere near past the bird (x = 567, bird x = 30) sets score_counted,
so the flag is not set only by the pass-through rule; and when that
segment later is fully past the bird (x = -80) the pass-through rule
awards nothing: the score stays at 3, so a fully passing segment does not
always contribute its pass-through point. -/
theorem c1_counterexample :
    (segStep 30 353 true pBonus 0 false).1.score_counted = true ∧
    ¬ (pBonus.x + Obstacle_bonus.WIDTH < 30) ∧
    (segStep 30 353 false ({ (segStep 30 353 true pBonus 0 false).1 with x := -80 })
      3 false).2.1 = 3 := by
  have hb : pBonus.atr = [⟨PieceKind.bonus, 353⟩] := by
    have hr : List.range 1 = [0] := rfl
    simp only [pBonus, Obstacle_bonus.init, hr, List.map_cons, List.map_nil]
    norm_num [is_bonus, zeroDraws, WIN_HEIGHT, Obstacle_bonus.PIECE_HEIGHT]
  have h1 : selKind 353 pBonus = PieceKind.bonus := by
    simp [selKind, selIdx, hb, argminIdx]
  have hstep : segStep 30 353 true pBonus 0 false =
      ({ pBonus with score_counted := true,
                     atr := pBonus.atr.set (selIdx 353 pBonus)
                       { pBonus.atr.getD (selIdx 353 pBonus) default with
                           kind := PieceKind.noneKind } },
       0 + 3, false) := by
    simp [segStep, h1]
  refine ⟨by rw [hstep], ?_, ?_⟩
  · norm_num [pBonus, Obstacle_bonus.init, WIN_WIDTH, Obstacle_bonus.WIDTH]
  · rw [hstep]
    simp [segStep]

/-- A state one frame into an unpaused run whose score is 1: the modulus
condition of the difficulty ramp already holds and keeps holding while the
score does not change. -/
def s_c2 : GameState :=
  { score := 1, done := false, paused := false, frame_clock := 1, position := 1,
    bird := ⟨30, 354, 0, 0⟩, objects := [], animation_speed := 0.6, fps := 60,
    bgSpeed := 3 }

/-- C2: evaluation of the code at the failing input.  Starting from an
unpaused, obstacle-free state with score 1, two consecutive ticks leave
the score unchanged at 1 and nevertheless increment the scroll speed
twice (and the FPS global twice by 10): the ramp check re-fires on every
tick while score mod 10 equals 1, instead of firing at most once per
10-point boundary. -/
theorem c2_theorem :
    (tick dummySeg [] [] (tick dummySeg [] [] s_c2)).score = s_c2.score ∧
    (tick dummySeg [] [] (tick dummySeg [] [] s_c2)).animation_speed
      = s_c2.animation_speed + 2 * (1 / 1000) ∧
    (tick dummySeg [] [] (tick dummySeg [] [] s_c2)).fps = s_c2.fps + 2 * 10 := by
  have h1 : tick dummySeg [] [] s_c2 =
      { s_c2 with animation_speed := 0.601, fps := 70, bgSpeed := 3.05,
                  frame_clock := 2 } := by
    norm_num [tick, spawnPhase, applyEvents, scorePhase, scoreLoop, rampPhase,
      evictPhase, evict, advancePhase, birdPhase, Bird.update, qmod,
      msec_to_frames, frames_to_msec, FPS_default, ADD_INTERVAL, s_c2]
  have h2 : tick dummySeg [] []
      ({ s_c2 with animation_speed := 0.601, fps := 70, bgSpeed := 3.05,
                   frame_clock := 2 } : GameState) =
      { s_c2 with animation_speed := 0.602, fps := 80, bgSpeed := 3.1,
                  frame_clock := 3 } := by
    norm_num [tick, spawnPhase, applyEvents, scorePhase, scoreLoop, rampPhase,
      evictPhase, evict, advancePhase, birdPhase, Bird.update, qmod,
      msec_to_frames, frames_to_msec, FPS_default, ADD_INTERVAL, s_c2]
  rw [h1, h2]
  norm_num [s_c2]

/-- A live segment whose leading edge is 65 pixels left of the screen,
still visible, not yet score-counted, holding one obstacle piece. -/
def seg65 : Obstacle_bonus := ⟨-65, false, 1, [⟨PieceKind.obstacle, 266⟩]⟩

/-- An unpaused state with score 0 whose only live segment is seg65. -/
def s_c7 : GameState :=
  { score := 0, done := false, paused := false, frame_clock := 1, position := 1,
    bird := ⟨30, 354, 0, 0⟩, objects := [seg65], animation_speed := 0.6, fps := 60,
    bgSpeed := 3 }

/-- C7 amended theorem.  On every tick that is not paused after event
handling, the source executes spawn check, then event handling, then the
collision and scoring loop (on the positions advanced at the end of the
previous tick), then the difficulty ramp, then eviction, then the advance
of all segments, then the bird motion update, then the frame counter
increment - in that order.  In particular eviction runs after the
collision queries and the advance runs after eviction, contrary to the
claimed order; see the counterexample. -/
theorem c7_theorem (n : Obstacle_bonus) (e : List Cmd) (h : List Bool) (s : GameState)
    (hp : (applyEvents (spawnPhase n s) e).paused = false) :
    tick n e h s =
      (let s2 := applyEvents (spawnPhase n s) e
       let s3 := birdPhase (advancePhase (evictPhase (rampPhase (scorePhase h s2))))
       { s3 with frame_clock := s3.frame_clock + 1 }) := by
  simp only [tick, hp, Bool.false_eq_true, if_false]

/-- C7 witness: the amended order theorem applied at a concrete unpaused
state. -/
theorem c7_witness :
    (applyEvents (spawnPhase dummySeg s_c7) []).paused = false ∧
    tick dummySeg [] [] s_c7 =
      (let s2 := applyEvents (spawnPhase dummySeg s_c7) []
       let s3 := birdPhase (advancePhase (evictPhase (rampPhase (scorePhase [] s2))))
       { s3 with frame_clock := s3.frame_clock + 1 }) := by
  have hp : (applyEvents (spawnPhase dummySeg s_c7) []).paused = false := by
    norm_num [applyEvents, spawnPhase, qmod, msec_to_frames, FPS_default,
      ADD_INTERVAL, s_c7]
  exact ⟨hp, c7_theorem dummySeg [] [] s_c7 hp⟩

/-- C7 counterexample.  On the concrete state s_c7 the source order and
the claimed order disagree observably: the source scores the segment at
its pre-advance position x = -65 (trailing edge at 35, not yet past the
bird at x = 30, so no pass-through point this tick), while the claimed
order advances to x = -75 first and then awards the pass-through point in
the same tick, yielding score 1 and even firing the ramp.  So the claimed
advance-evict-before-collision order is not the order of the code. -/
theorem c7_counterexample :
    (tick dummySeg [] [] s_c7).score = 0 ∧
    (tickClaimed dummySeg [] [] s_c7).score = 1 ∧
    tick dummySeg [] [] s_c7 ≠ tickClaimed dummySeg [] [] s_c7 := by
  have ht : (tick dummySeg [] [] s_c7).score = 0 := by
    norm_num [tick, spawnPhase, applyEvents, scorePhase, scoreLoop, segStep,
      selKind, selIdx, argminIdx, rampPhase, evictPhase, evict, advancePhase,
      birdPhase, Bird.update, Obstacle_bonus.visible, Obstacle_bonus.WIDTH, qmod,
      msec_to_frames, frames_to_msec, FPS_default, ADD_INTERVAL, s_c7, seg65,
      WIN_WIDTH]
  have htc : (tickClaimed dummySeg [] [] s_c7).score = 1 := by
    norm_num [tickClaimed, spawnPhase, applyEvents, scorePhase, scoreLoop, segStep,
      selKind, selIdx, argminIdx, rampPhase, evictPhase, evict, advancePhase,
      birdPhase, Bird.update, Obstacle_bonus.visible, Obstacle_bonus.WIDTH, qmod,
      msec_to_frames, frames_to_msec, FPS_default, ADD_INTERVAL, s_c7, seg65,
      WIN_WIDTH]
  refine ⟨ht, htc, fun heq => ?_⟩
  have := congrArg GameState.score heq
  rw [ht, htc] at this
  exact absurd this (by norm_num)

/-- A segment in collision range holding one obstacle piece. -/
def p1c8 : Obstacle_bonus := ⟨100, false, 1, [⟨PieceKind.obstacle, 353⟩]⟩

/-- A segment fully past the bird, not yet score-counted. -/
def p2c8 : Obstacle_bonus := ⟨-80, false, 1, [⟨PieceKind.obstacle, 440⟩]⟩

/-- C8 counterexample.  Processing the first segment alone already sets
the done flag (obstacle hit) with the score still 0; processing both
segments in the same tick leaves done set and raises the score to 1: the
pass-through rule of the second segment still mutates the score after the
Ended transition occurred earlier in the very same tick. -/
theorem c8_counterexample :
    (scoreLoop 30 353 [p1c8] [true] 0 false).2.2 = true ∧
    (scoreLoop 30 353 [p1c8] [true] 0 false).2.1 = 0 ∧
    (scoreLoop 30 353 [p1c8, p2c8] [true, false] 0 false).2.2 = true ∧
    (scoreLoop 30 353 [p1c8, p2c8] [true, false] 0 false).2.1 = 1 := by
  have h1 : selKind 353 (⟨100, false, 1, [⟨PieceKind.obstacle, 353⟩]⟩ : Obstacle_bonus)
      = PieceKind.obstacle := by
    simp [selKind, selIdx, argminIdx]
  refine ⟨?_, ?_, ?_, ?_⟩ <;>
    norm_num [scoreLoop, segStep, h1, p1c8, p2c8, Obstacle_bonus.WIDTH]

/-- C8 amended theorem.  Once done holds, the while-not-done driver
performs no further iterations at all: the state, in particular the
score, the field and the bird, is fully frozen for any number of
remaining iterations and any input, randomness and collision streams.
Within the tick that set done the rest of the tick still runs; see the
counterexample. -/
theorem c8_theorem (segs : ℕ → Obstacle_bonus) (evs : ℕ → List Cmd)
    (hs : ℕ → List Bool) (t k : ℕ) (s : GameState) (h : s.done = true) :
    loopRun segs evs hs t k s = s := by
  cases k with
  | zero => rfl
  | succ k => simp [loopRun, h]

/-- A state whose run has ended. -/
def sEnded : GameState := { s_c2 with done := true }

/-- C8 witness: the frozen-after-end theorem applied at a concrete ended
state for 5 further iterations. -/
theorem c8_witness :
    sEnded.done = true ∧
    loopRun (fun _ => dummySeg) (fun _ => []) (fun _ => []) 0 5 sEnded = sEnded :=
  ⟨rfl, c8_theorem (fun _ => dummySeg) (fun _ => []) (fun _ => []) 0 5 sEnded rfl⟩

/-- Event handling never reads or writes the fps field. -/
lemma applyEvents_setFps (e : List Cmd) :
    ∀ (s : GameState) (f : ℚ),
      applyEvents { s with fps := f } e = { applyEvents s e with fps := f } := by
  induction e with
  | nil => intro s f; rfl
  | cons c cs ih =>
    intro s f
    cases c with
    | quitKey => rfl
    | pauseKey => exact ih { s with paused := !s.paused } f
    | up =>
      exact ih { s with bird := (requestAscend s.bird s.position).1,
                        position := (requestAscend s.bird s.position).2 } f
    | down =>
      exact ih { s with bird := (requestDescend s.bird s.position).1,
                        position := (requestDescend s.bird s.position).2 } f

/-- The spawn check never reads or writes the fps field. -/
lemma spawnPhase_setFps (n : Obstacle_bonus) (s : GameState) (f : ℚ) :
    spawnPhase n { s with fps := f } = { spawnPhase n s with fps := f } := by
  dsimp only [spawnPhase]
  split_ifs <;> rfl

/-- The scoring loop never reads or writes the fps field. -/
lemma scorePhase_setFps (h : List Bool) (s : GameState) (f : ℚ) :
    scorePhase h { s with fps := f } = { scorePhase h s with fps := f } := rfl

/-- The ramp reads the score only; on the fps channel it adds 10 exactly
when it fires. -/
lemma rampPhase_setFps (s : GameState) (f : ℚ) :
    rampPhase { s with fps := f }
      = { rampPhase s with fps := if s.score % 10 = 1 then f + 10 else f } := by
  dsimp only [rampPhase]
  split_ifs <;> rfl

/-- Eviction never touches the fps field. -/
lemma evictPhase_setFps (s : GameState) (f : ℚ) :
    evictPhase { s with fps := f } = { evictPhase s with fps := f } := rfl

/-- The segment advance never reads the fps field: its frame milliseconds
come from the definition-time default, not from the mutated global. -/
lemma advancePhase_setFps (s : GameState) (f : ℚ) :
    advancePhase { s with fps := f } = { advancePhase s with fps := f } := rfl

/-- The bird update never reads the fps field: its frame milliseconds come
from the definition-time default, not from the mutated global. -/
lemma birdPhase_setFps (s : GameState) (f : ℚ) :
    birdPhase { s with fps := f } = { birdPhase s with fps := f } := rfl

/-- C10: the simulated timestep and spawn cadence are invariant under the
ramp mutation of the FPS global.  First: the spawn condition computed with
the definition-time default (msec_to_frames of ADD_INTERVAL at 60 fps)
holds exactly when the unpaused frame counter is a multiple of 30 frames.
Second: the per-frame simulated milliseconds are the constant 1000/60.
Third: for every reachable state, in particular states whose fps field
has been raised any number of times by the ramp, the entire tick result
apart from the fps channel itself is independent of the fps value. -/
theorem c10_theorem :
    (∀ fc : ℕ, qmod (fc : ℚ) (msec_to_frames ADD_INTERVAL FPS_default) = 0 ↔ 30 ∣ fc) ∧
    frames_to_msec 1 FPS_default = 1000 / 60 ∧
    (∀ (n : Obstacle_bonus) (e : List Cmd) (h : List Bool) (s : GameState) (f : ℚ),
      stripFps (tick n e h { s with fps := f }) = stripFps (tick n e h s)) := by
  refine ⟨?_, ?_, ?_⟩
  · intro fc
    have hC : msec_to_frames ADD_INTERVAL FPS_default = 30 := by
      norm_num [msec_to_frames, ADD_INTERVAL, FPS_default]
    rw [hC]
    unfold qmod
    constructor
    · intro h0
      have h1 : (fc : ℚ) = 30 * ((⌊(fc : ℚ) / 30⌋ : ℤ) : ℚ) := by linarith
      have h2 : (fc : ℤ) = 30 * ⌊(fc : ℚ) / 30⌋ := by exact_mod_cast h1
      omega
    · rintro ⟨k, rfl⟩
      push_cast
      have h30 : (30 : ℚ) ≠ 0 := by norm_num
      rw [mul_div_cancel_left₀ (k : ℚ) h30, Int.floor_natCast]
      push_cast
      ring
  · norm_num [frames_to_msec, FPS_default]
  · intro n e h s f
    simp only [tick]
    rw [spawnPhase_setFps, applyEvents_setFps]
    dsimp only
    by_cases hp : (applyEvents (spawnPhase n s) e).paused = true
    · rw [if_pos hp, if_pos hp]
      rfl
    · rw [if_neg hp, if_neg hp]
      rw [scorePhase_setFps, rampPhase_setFps, evictPhase_setFps, advancePhase_setFps,
        birdPhase_setFps]
      rfl
